import Mathlib

/-!
A shallow embedding of the resume file-format converter (src/converter.py,
with the web caller in src/app.py).  Python pathlib path arithmetic is
modelled on a structured path type; the external effects of the converters
(the docx2pdf library, the pdf2docx library, the headless soffice
subprocess, filesystem writes and renames) are modelled by an explicit
environment record, the filesystem as a list of existing file paths, and a
trace of the actions a call performs.
-/

namespace ResConv

/-- Index of the last occurrence of a dot in a list of characters: the
rfind step of Python pathlib's suffix computation. -/
def lastDotIdx : List Char → Option Nat
  | [] => none
  | c :: cs =>
    match lastDotIdx cs with
    | some i => some (i + 1)
    | none => if c = '.' then some (0 : Nat) else none

/-- Python pathlib suffix of a file name: the final dotted extension, and
empty when the last dot is leading, trailing or absent. -/
def nameSuffix (name : String) : String :=
  match lastDotIdx name.data with
  | some i =>
    if 0 < i ∧ i + 1 < name.data.length then String.mk (name.data.drop i) else ""
  | none => ""

/-- Python pathlib stem of a file name: the name with its suffix removed. -/
def nameStem (name : String) : String :=
  match lastDotIdx name.data with
  | some i =>
    if 0 < i ∧ i + 1 < name.data.length then String.mk (name.data.take i) else name
  | none => name

/-- Python pathlib with_suffix on a file name: the stem with the new
extension appended (with_suffix additionally rejects an empty name, which
the caller in `computeOut` models). -/
def withSuffixName (name ext : String) : String :=
  nameStem name ++ ext

/-- Python str.lower, restricted to the ASCII file names used here. -/
def strLower (s : String) : String :=
  String.mk (s.data.map Char.toLower)

/-- A filesystem path: the directory components and the file name.  The
parent directory of the path is the `dir` field. -/
structure FilePath where
  dir : List String
  name : String
  deriving DecidableEq, Repr

/-- The filesystem state: the list of file paths that currently exist. -/
abbrev FS := List FilePath

/-- The external environment a conversion runs in: the result of
shutil.which for the soffice binary, and whether each external converter
succeeds when invoked (docx2pdf raising, the soffice subprocess exiting
with a non-zero status, pdf2docx raising). -/
structure Env where
  soffice : Option String
  docx2pdfOk : Bool
  sofficeOk : Bool
  pdf2docxOk : Bool
  deriving DecidableEq, Repr

/-- The Python exceptions the converter module can raise. -/
inductive PyError where
  | runtimeError (msg : String)
  | calledProcessError
  | conversionError
  | fileNotFoundError (path : FilePath)
  | valueError (msg : String)
  deriving DecidableEq, Repr

/-- The externally visible actions a conversion performs, in order: the
mkdir of the destination's parent, an attempted docx2pdf library call, a
soffice subprocess run (with its argv fields and whether capture_output
was passed), an attempted pdf2docx library call, and a filesystem
rename. -/
inductive Action where
  | mkdirP (dir : List String)
  | primaryDocx2Pdf (src dst : FilePath)
  | soffice (exe fmt : String) (outdir : List String) (input : FilePath)
      (captureOutput : Bool)
  | pdf2docxConvert (src dst : FilePath)
  | rename (old new : FilePath)
  deriving DecidableEq, Repr

/-- The argv of the subprocess an action runs, for the soffice action:
exactly the list built at src/converter.py lines 38-46 and 58-66. -/
def Action.argv : Action → Option (List String)
  | .soffice exe fmt outdir input _ =>
    some [exe, "--headless", "--convert-to", fmt, "--outdir",
      String.intercalate ("/") outdir, String.intercalate ("/") (input.dir ++ [input.name])]
  | _ => none

/-- The file path an action writes or creates, when it writes one. -/
def Action.writeTarget : Action → Option FilePath
  | .mkdirP _ => none
  | .primaryDocx2Pdf _ d => some d
  | .soffice _ fmt outdir input _ =>
    some ⟨outdir, withSuffixName input.name ("." ++ fmt)⟩
  | .pdf2docxConvert _ d => some d
  | .rename _ n => some n

/-- The file path an action removes, when it removes one (only a rename
removes its old path). -/
def Action.removeTarget : Action → Option FilePath
  | .rename o _ => some o
  | _ => none

/-- The outcome of one converter call: the Python result (normal return or
raised exception), the filesystem afterwards, and the trace of performed
actions. -/
structure Outcome where
  result : Except PyError Unit
  fs : FS
  trace : List Action

/-- The outcome of a main call: on normal return main reports the output
path it printed in the success message. -/
structure MainOutcome where
  result : Except PyError FilePath
  fs : FS
  trace : List Action

/-- convert_docx_to_pdf (src/converter.py lines 28-48): make the
destination's parent directory, try the docx2pdf library, and on any
exception fall back to a headless soffice run into dst.parent — raising
RuntimeError when soffice is not found.  The soffice run does not pass
capture_output, and on success writes the source base name with the pdf
extension into dst.parent; the subprocess is run with check=True, so a
non-zero exit raises CalledProcessError. -/
def convert_docx_to_pdf (env : Env) (src dst : FilePath) (fs : FS) : Outcome :=
  if env.docx2pdfOk then
    { result := Except.ok (),
      fs := dst :: fs,
      trace := [Action.mkdirP dst.dir, Action.primaryDocx2Pdf src dst] }
  else
    match env.soffice with
    | none =>
      { result := Except.error (PyError.runtimeError
          ("docx2pdf requires Word and LibreOffice (soffice) was not found for fallback.")),
        fs := fs,
        trace := [Action.mkdirP dst.dir, Action.primaryDocx2Pdf src dst] }
    | some soff =>
      if env.sofficeOk then
        { result := Except.ok (),
          fs := FilePath.mk dst.dir (withSuffixName src.name (".pdf")) :: fs,
          trace := [Action.mkdirP dst.dir, Action.primaryDocx2Pdf src dst,
            Action.soffice soff ("pdf") dst.dir src false] }
      else
        { result := Except.error PyError.calledProcessError,
          fs := fs,
          trace := [Action.mkdirP dst.dir, Action.primaryDocx2Pdf src dst,
            Action.soffice soff ("pdf") dst.dir src false] }

/-- The pdf2docx tier of convert_pdf_to_docx (src/converter.py lines
78-81): the PDF2DOCX converter writes the destination path directly, and
its exceptions propagate to the caller. -/
def pdf2docxFallback (env : Env) (src dst : FilePath) (fs : FS) (tr : List Action) :
    Outcome :=
  if env.pdf2docxOk then
    { result := Except.ok (),
      fs := dst :: fs,
      trace := tr ++ [Action.pdf2docxConvert src dst] }
  else
    { result := Except.error PyError.conversionError,
      fs := fs,
      trace := tr ++ [Action.pdf2docxConvert src dst] }

/-- convert_pdf_to_docx (src/converter.py lines 51-81): make the
destination's parent directory; when soffice is locatable run it headless
with capture_output into dst.parent (it writes the source base name with
the docx extension there), rename that output to dst when it exists and
differs from dst, and return; a CalledProcessError from the subprocess is
suppressed and the pdf2docx tier runs instead, as it also does when
soffice is not locatable. -/
def convert_pdf_to_docx (env : Env) (src dst : FilePath) (fs : FS) : Outcome :=
  match env.soffice with
  | some soff =>
    if env.sofficeOk then
      let lo : FilePath := ⟨dst.dir, withSuffixName src.name (".docx")⟩
      let fs1 : FS := lo :: fs
      if lo ∈ fs1 ∧ lo ≠ dst then
        { result := Except.ok (),
          fs := dst :: fs1.filter (fun q => decide (q ≠ lo)),
          trace := [Action.mkdirP dst.dir,
            Action.soffice soff ("docx") dst.dir src true, Action.rename lo dst] }
      else
        { result := Except.ok (),
          fs := fs1,
          trace := [Action.mkdirP dst.dir,
            Action.soffice soff ("docx") dst.dir src true] }
    else
      pdf2docxFallback env src dst fs
        [Action.mkdirP dst.dir, Action.soffice soff ("docx") dst.dir src true]
  | none => pdf2docxFallback env src dst fs [Action.mkdirP dst.dir]

/-- The target-extension rule of main (src/converter.py line 143): a dot
plus the lowered override when --to was passed, else the strict binary
swap on the lowered source extension. -/
def routeTargetExt (src_ext : String) (toArg : Option String) : String :=
  match toArg with
  | some t => "." ++ strLower t
  | none => if src_ext = ".docx" then ".pdf" else ".docx"

/-- The output-path rule of main (src/converter.py lines 148-153): a
caller-supplied path is kept when its lowered suffix already matches the
target extension and otherwise coerced with with_suffix (which raises
ValueError on an empty name); with no -o argument the default is
output_resume with the target extension. -/
def computeOut (output : Option FilePath) (target_ext : String) :
    Except PyError FilePath :=
  match output with
  | some o =>
    if strLower (nameSuffix o.name) ≠ target_ext then
      if o.name = "" then Except.error (PyError.valueError ("empty name"))
      else Except.ok ⟨o.dir, withSuffixName o.name target_ext⟩
    else Except.ok o
  | none => Except.ok ⟨[], withSuffixName ("output_resume") target_ext⟩

/-- main (src/converter.py lines 136-160), from the point where the source
path is resolved: raise FileNotFoundError when the source does not exist,
ValueError when its lowered extension is outside docx/pdf, compute the
target extension, raise ValueError when it equals the source extension,
compute the output path, and dispatch to the converter for the target
direction.  Argument parsing and the Colab upload prompt sit before this
and only produce the arguments. -/
def main (env : Env) (src : FilePath) (output : Option FilePath)
    (toArg : Option String) (fs : FS) : MainOutcome :=
  if src ∉ fs then
    { result := Except.error (PyError.fileNotFoundError src), fs := fs, trace := [] }
  else if strLower (nameSuffix src.name) ≠ ".docx" ∧
      strLower (nameSuffix src.name) ≠ ".pdf" then
    { result := Except.error (PyError.valueError
        ("Only .docx and .pdf files are supported.")),
      fs := fs, trace := [] }
  else if routeTargetExt (strLower (nameSuffix src.name)) toArg
      = strLower (nameSuffix src.name) then
    { result := Except.error (PyError.valueError
        ("Input and output types are the same; choose the opposite format.")),
      fs := fs, trace := [] }
  else
    match computeOut output (routeTargetExt (strLower (nameSuffix src.name)) toArg) with
    | Except.error e => { result := Except.error e, fs := fs, trace := [] }
    | Except.ok out =>
      let o :=
        if routeTargetExt (strLower (nameSuffix src.name)) toArg = ".pdf" then
          convert_docx_to_pdf env src out fs
        else
          convert_pdf_to_docx env src out fs
      { result := o.result.map (fun _ => out), fs := o.fs, trace := o.trace }

/-- Whether an action, if it is a soffice subprocess run, carries the given
capture_output flag (any other action passes vacuously). -/
def capOnly (expected : Bool) : Action → Bool
  | .soffice _ _ _ _ cap => cap == expected
  | _ => true

/-- The last-dot index of a concatenation is the left length plus the
last-dot index of the right part, when the right part has a dot. -/
theorem lastDotIdx_append (l sfx : List Char) (i : Nat) (h : lastDotIdx sfx = some i) :
    lastDotIdx (l ++ sfx) = some (l.length + i) := by
  induction l with
  | nil => simpa using h
  | cons c cs ih =>
    simp only [List.cons_append, lastDotIdx, List.append_eq, ih, List.length_cons]
    congr 1
    omega

/-- Appending a well-formed dotted extension to a non-empty stem yields a
name whose pathlib suffix is exactly that extension. -/
theorem nameSuffix_stem_append (stem : List Char) (ext : String) (hs : stem ≠ [])
    (he : lastDotIdx ext.data = some 0) (hl : 1 < ext.data.length) :
    nameSuffix (String.mk stem ++ ext) = ext := by
  have hdata : (String.mk stem ++ ext).data = stem ++ ext.data := by
    cases ext
    rfl
  have hidx : lastDotIdx (String.mk stem ++ ext).data = some (stem.length + 0) := by
    rw [hdata]
    exact lastDotIdx_append _ _ _ he
  have hpos : 0 < stem.length + 0 := by
    have := List.length_pos.mpr hs
    omega
  have hlt : stem.length + 0 + 1 < (String.mk stem ++ ext).data.length := by
    rw [hdata, List.length_append]
    omega
  unfold nameSuffix
  rw [hidx]
  show (if 0 < stem.length + 0 ∧ stem.length + 0 + 1 < (String.mk stem ++ ext).data.length
      then String.mk (((String.mk stem ++ ext).data).drop (stem.length + 0)) else "") = ext
  rw [if_pos ⟨hpos, hlt⟩, hdata]
  have hdrop : (stem ++ ext.data).drop (stem.length + 0) = ext.data := by
    rw [Nat.add_zero]
    exact List.drop_left stem ext.data
  rw [hdrop]

/-- The pathlib stem of a non-empty name is non-empty. -/
theorem nameStem_ne_nil (name : String) (h : name ≠ "") : (nameStem name).data ≠ [] := by
  have hd : name.data ≠ [] := by
    intro hnil
    apply h
    cases name
    simp_all
  unfold nameStem
  cases hlast : lastDotIdx name.data with
  | none => exact hd
  | some i =>
    show (if 0 < i ∧ i + 1 < name.data.length
        then String.mk (name.data.take i) else name).data ≠ []
    by_cases hcond : 0 < i ∧ i + 1 < name.data.length
    · rw [if_pos hcond]
      intro htake
      have htake2 : name.data.take i = [] := htake
      rcases List.take_eq_nil_iff.mp htake2 with h0 | h0
      · omega
      · exact hd h0
    · rw [if_neg hcond]
      exact hd

/-- with_suffix on a non-empty name with a well-formed dotted extension
produces a name whose suffix is exactly that extension. -/
theorem nameSuffix_withSuffix (name ext : String) (hn : name ≠ "")
    (he : lastDotIdx ext.data = some 0) (hl : 1 < ext.data.length) :
    nameSuffix (withSuffixName name ext) = ext := by
  exact nameSuffix_stem_append (nameStem name).data ext (nameStem_ne_nil name hn) he hl

/-- Under the argparse choices of --to, the computed target extension is
always .pdf or .docx. -/
theorem routeTargetExt_cases (src_ext : String) (toArg : Option String)
    (ht : toArg = none ∨ toArg = some ("pdf") ∨ toArg = some ("docx")) :
    routeTargetExt src_ext toArg = ".pdf" ∨ routeTargetExt src_ext toArg = ".docx" := by
  rcases ht with rfl | rfl | rfl
  · by_cases hc : src_ext = ".docx"
    · left
      simp [routeTargetExt, hc]
    · right
      simp [routeTargetExt, hc]
  · left
    simp only [routeTargetExt]
    decide
  · right
    simp only [routeTargetExt]
    decide

/-- The output path main computes always carries the target extension as
its lowered suffix. -/
theorem computeOut_suffix (output : Option FilePath) (target : String) (out : FilePath)
    (ht : target = ".pdf" ∨ target = ".docx")
    (h : computeOut output target = Except.ok out) :
    strLower (nameSuffix out.name) = target := by
  have hdot : lastDotIdx target.data = some 0 := by
    rcases ht with rfl | rfl <;> decide
  have hlen : 1 < target.data.length := by
    rcases ht with rfl | rfl <;> decide
  have hlow : strLower target = target := by
    rcases ht with rfl | rfl <;> decide
  cases output with
  | none =>
    simp only [computeOut, Except.ok.injEq] at h
    subst h
    rw [show (FilePath.mk [] (withSuffixName ("output_resume") target)).name
        = withSuffixName ("output_resume") target from rfl]
    rw [nameSuffix_withSuffix ("output_resume") target (by decide) hdot hlen]
    exact hlow
  | some o =>
    simp only [computeOut] at h
    split at h
    · split at h
      · exact absurd h (by simp)
      · rename_i hne hname
        simp only [Except.ok.injEq] at h
        subst h
        rw [show (FilePath.mk o.dir (withSuffixName o.name target)).name
            = withSuffixName o.name target from rfl]
        rw [nameSuffix_withSuffix o.name target hname hdot hlen]
        exact hlow
    · rename_i hkeep
      simp only [Except.ok.injEq] at h
      subst h
      exact not_ne_iff.mp hkeep

/-- C1: the claim that a normal return of either converter implies the
destination exists fails in the code for convert_docx_to_pdf.  At this
failing input — the primary docx2pdf method throws, soffice is found and
exits 0, and the destination name output_resume.pdf differs from the
source base name resume — the soffice fallback writes resume.pdf into the
destination's parent and convert_docx_to_pdf returns normally, yet no file
exists at the requested destination (which main then reports as saved).
The sibling convert_pdf_to_docx performs exactly the rename that is
missing here, so this is a slip in the code rather than in the claim. -/
theorem c1_failing_eval :
    (convert_docx_to_pdf ⟨some ("soffice"), false, true, true⟩ ⟨[], "resume.docx"⟩
        ⟨[], "output_resume.pdf"⟩ [⟨[], "resume.docx"⟩]).result = Except.ok () ∧
    (⟨[], "output_resume.pdf"⟩ : FilePath)
      ∉ (convert_docx_to_pdf ⟨some ("soffice"), false, true, true⟩ ⟨[], "resume.docx"⟩
        ⟨[], "output_resume.pdf"⟩ [⟨[], "resume.docx"⟩]).fs :=
  ⟨rfl, by decide⟩

/-- C2: with no explicit override the Format Router performs the strict
binary swap — a .docx source yields target extension .pdf and a .pdf
source yields .docx. -/
theorem c2_default_swap :
    routeTargetExt (".docx") none = ".pdf" ∧ routeTargetExt (".pdf") none = ".docx" := by
  constructor <;> rfl

/-- C3: when the primary docx2pdf method fails and soffice is not
locatable, convert_docx_to_pdf raises the RuntimeError naming the missing
soffice requirement, and its trace contains no subprocess action — the
fallback is never attempted. -/
theorem c3_dependency_missing (env : Env) (src dst : FilePath) (fs : FS)
    (h1 : env.docx2pdfOk = false) (h2 : env.soffice = none) :
    (convert_docx_to_pdf env src dst fs).result
      = Except.error (PyError.runtimeError
          ("docx2pdf requires Word and LibreOffice (soffice) was not found for fallback.")) ∧
    (convert_docx_to_pdf env src dst fs).trace
      = [Action.mkdirP dst.dir, Action.primaryDocx2Pdf src dst] := by
  simp [convert_docx_to_pdf, h1, h2]

/-- Witness for C3 at a concrete environment with docx2pdf failing and no
soffice binary. -/
theorem c3_dependency_missing_witness :
    (convert_docx_to_pdf ⟨none, false, true, true⟩ ⟨[], "r.docx"⟩ ⟨[], "r.pdf"⟩ []).result
      = Except.error (PyError.runtimeError
          ("docx2pdf requires Word and LibreOffice (soffice) was not found for fallback.")) ∧
    (convert_docx_to_pdf ⟨none, false, true, true⟩ ⟨[], "r.docx"⟩ ⟨[], "r.pdf"⟩ []).trace
      = [Action.mkdirP [], Action.primaryDocx2Pdf ⟨[], "r.docx"⟩ ⟨[], "r.pdf"⟩] :=
  c3_dependency_missing ⟨none, false, true, true⟩ ⟨[], "r.docx"⟩ ⟨[], "r.pdf"⟩ [] rfl rfl

/-- C4: when soffice runs and succeeds for PDF to DOCX and its
deterministically named output (destination parent, source base name,
.docx) differs from the requested destination, convert_pdf_to_docx returns
normally, the destination exists, the rename of the soffice output to the
destination is performed, and the soffice output path no longer exists —
the file ends up exactly at the destination. -/
theorem c4_rename_exact (env : Env) (soff : String) (src dst : FilePath) (fs : FS)
    (h1 : env.soffice = some soff) (h2 : env.sofficeOk = true)
    (h3 : (⟨dst.dir, withSuffixName src.name (".docx")⟩ : FilePath) ≠ dst) :
    (convert_pdf_to_docx env src dst fs).result = Except.ok () ∧
    dst ∈ (convert_pdf_to_docx env src dst fs).fs ∧
    Action.rename ⟨dst.dir, withSuffixName src.name (".docx")⟩ dst
      ∈ (convert_pdf_to_docx env src dst fs).trace ∧
    (⟨dst.dir, withSuffixName src.name (".docx")⟩ : FilePath)
      ∉ (convert_pdf_to_docx env src dst fs).fs := by
  simp [convert_pdf_to_docx, h1, h2, h3]

/-- Witness for C4 at a concrete conversion whose soffice output name
differs from the destination name. -/
theorem c4_rename_exact_witness :
    (convert_pdf_to_docx ⟨some ("soffice"), true, true, true⟩ ⟨[], "a.pdf"⟩
        ⟨[], "out.docx"⟩ []).result = Except.ok () ∧
    (⟨[], "out.docx"⟩ : FilePath)
      ∈ (convert_pdf_to_docx ⟨some ("soffice"), true, true, true⟩ ⟨[], "a.pdf"⟩
          ⟨[], "out.docx"⟩ []).fs ∧
    Action.rename ⟨[], withSuffixName ("a.pdf") (".docx")⟩ ⟨[], "out.docx"⟩
      ∈ (convert_pdf_to_docx ⟨some ("soffice"), true, true, true⟩ ⟨[], "a.pdf"⟩
          ⟨[], "out.docx"⟩ []).trace ∧
    (⟨[], withSuffixName ("a.pdf") (".docx")⟩ : FilePath)
      ∉ (convert_pdf_to_docx ⟨some ("soffice"), true, true, true⟩ ⟨[], "a.pdf"⟩
          ⟨[], "out.docx"⟩ []).fs :=
  c4_rename_exact ⟨some ("soffice"), true, true, true⟩ ("soffice") ⟨[], "a.pdf"⟩
    ⟨[], "out.docx"⟩ [] rfl rfl (by decide)

/-- C5: convert_pdf_to_docx attempts the soffice tier first whenever the
binary is locatable (the trace begins with the mkdir and the soffice
subprocess); the pdf2docx tier is invoked exactly when the binary is
unavailable or its subprocess fails, that intermediate failure being
suppressed; and an error surfaces exactly when the tiers are exhausted. -/
theorem c5_tier_order (env : Env) (src dst : FilePath) (fs : FS) :
    (∀ soff, env.soffice = some soff →
      ∃ rest, (convert_pdf_to_docx env src dst fs).trace
        = Action.mkdirP dst.dir :: Action.soffice soff ("docx") dst.dir src true :: rest) ∧
    (Action.pdf2docxConvert src dst ∈ (convert_pdf_to_docx env src dst fs).trace
      ↔ env.soffice = none ∨ env.sofficeOk = false) ∧
    ((∃ e, (convert_pdf_to_docx env src dst fs).result = Except.error e)
      ↔ (env.soffice = none ∨ env.sofficeOk = false) ∧ env.pdf2docxOk = false) := by
  obtain ⟨sof, d2p, sOk, p2d⟩ := env
  cases sof with
  | none => cases p2d <;> simp [convert_pdf_to_docx, pdf2docxFallback]
  | some s =>
    cases sOk with
    | false => cases p2d <;> simp [convert_pdf_to_docx, pdf2docxFallback]
    | true =>
      refine ⟨?_, ?_, ?_⟩
      · intro soff hs
        have hss : s = soff := by simpa using hs
        subst hss
        by_cases hd : (⟨dst.dir, withSuffixName src.name (".docx")⟩ : FilePath) = dst
        · exact ⟨[], by simp [convert_pdf_to_docx, hd]⟩
        · exact ⟨[Action.rename ⟨dst.dir, withSuffixName src.name (".docx")⟩ dst],
            by simp [convert_pdf_to_docx, hd]⟩
      · by_cases hd : (⟨dst.dir, withSuffixName src.name (".docx")⟩ : FilePath) = dst <;>
          simp [convert_pdf_to_docx, hd]
      · by_cases hd : (⟨dst.dir, withSuffixName src.name (".docx")⟩ : FilePath) = dst <;>
          simp [convert_pdf_to_docx, hd]

/-- Witness for C5 at a concrete environment where soffice is present but
its subprocess fails: the trace still starts with the soffice attempt. -/
theorem c5_tier_order_witness :
    ∃ rest, (convert_pdf_to_docx ⟨some ("soffice"), true, false, true⟩
        ⟨[], "a.pdf"⟩ ⟨[], "b.docx"⟩ []).trace
      = Action.mkdirP [] :: Action.soffice ("soffice") ("docx") [] ⟨[], "a.pdf"⟩ true :: rest :=
  (c5_tier_order ⟨some ("soffice"), true, false, true⟩ ⟨[], "a.pdf"⟩ ⟨[], "b.docx"⟩ []).1
    ("soffice") rfl

/-- C6: when the explicit --to override equals the source format, main
raises the ValueError saying input and output types are the same, and no
conversion action is performed. -/
theorem c6_same_format (env : Env) (src : FilePath) (output : Option FilePath)
    (t : String) (fs : FS) (h1 : src ∈ fs)
    (h2 : strLower (nameSuffix src.name) = ".docx" ∨ strLower (nameSuffix src.name) = ".pdf")
    (h3 : "." ++ strLower t = strLower (nameSuffix src.name)) :
    (main env src output (some t) fs).result
      = Except.error (PyError.valueError
          ("Input and output types are the same; choose the opposite format.")) ∧
    (main env src output (some t) fs).trace = [] := by
  rcases h2 with h2 | h2 <;> simp [main, h1, h2, routeTargetExt, h3]

/-- Witness for C6: a --to docx override on a .docx source. -/
theorem c6_same_format_witness :
    (main ⟨some ("soffice"), true, true, true⟩ ⟨[], "resume.docx"⟩ none (some ("docx"))
        [⟨[], "resume.docx"⟩]).result
      = Except.error (PyError.valueError
          ("Input and output types are the same; choose the opposite format.")) ∧
    (main ⟨some ("soffice"), true, true, true⟩ ⟨[], "resume.docx"⟩ none (some ("docx"))
        [⟨[], "resume.docx"⟩]).trace = [] :=
  c6_same_format ⟨some ("soffice"), true, true, true⟩ ⟨[], "resume.docx"⟩ none ("docx")
    [⟨[], "resume.docx"⟩] (by decide) (Or.inl (by decide)) (by decide)

/-- C7: a source whose lowered extension is outside docx/pdf makes main
raise the unsupported-format ValueError before any conversion action. -/
theorem c7_unsupported (env : Env) (src : FilePath) (output : Option FilePath)
    (toArg : Option String) (fs : FS) (h1 : src ∈ fs)
    (h2 : strLower (nameSuffix src.name) ≠ ".docx")
    (h3 : strLower (nameSuffix src.name) ≠ ".pdf") :
    (main env src output toArg fs).result
      = Except.error (PyError.valueError ("Only .docx and .pdf files are supported.")) ∧
    (main env src output toArg fs).trace = [] := by
  simp [main, h1, h2, h3]

/-- Witness for C7: a .txt source. -/
theorem c7_unsupported_witness :
    (main ⟨some ("soffice"), true, true, true⟩ ⟨[], "notes.txt"⟩ none none
        [⟨[], "notes.txt"⟩]).result
      = Except.error (PyError.valueError ("Only .docx and .pdf files are supported.")) ∧
    (main ⟨some ("soffice"), true, true, true⟩ ⟨[], "notes.txt"⟩ none none
        [⟨[], "notes.txt"⟩]).trace = [] :=
  c7_unsupported ⟨some ("soffice"), true, true, true⟩ ⟨[], "notes.txt"⟩ none none
    [⟨[], "notes.txt"⟩] (by decide) (by decide) (by decide)

/-- C8: whenever main returns normally (so the conversion step was
reached), the lowered extension of the output path it used equals the
computed target extension and never equals the lowered source
extension. -/
theorem c8_output_extension (env : Env) (src : FilePath) (output : Option FilePath)
    (toArg : Option String) (fs : FS) (out : FilePath)
    (ht : toArg = none ∨ toArg = some ("pdf") ∨ toArg = some ("docx"))
    (h : (main env src output toArg fs).result = Except.ok out) :
    strLower (nameSuffix out.name) = routeTargetExt (strLower (nameSuffix src.name)) toArg ∧
    strLower (nameSuffix out.name) ≠ strLower (nameSuffix src.name) := by
  unfold main at h
  split at h
  · simp at h
  · split at h
    · simp at h
    · split at h
      · simp at h
      · rename_i hmem hsup hne
        split at h
        · simp at h
        · rename_i out0 hco
          simp only at h
          have hout : out = out0 := by
            cases hr : (if routeTargetExt (strLower (nameSuffix src.name)) toArg = ".pdf" then
                convert_docx_to_pdf env src out0 fs
              else convert_pdf_to_docx env src out0 fs).result with
            | error e =>
              rw [hr] at h
              simp [Except.map] at h
            | ok u =>
              rw [hr] at h
              simp [Except.map] at h
              exact h.symm
          subst hout
          have h1 := computeOut_suffix output _ out (routeTargetExt_cases _ _ ht) hco
          refine ⟨h1, ?_⟩
          rw [h1]
          exact hne

/-- Witness for C8: the default conversion of resume.docx, whose output
path is output_resume.pdf. -/
theorem c8_output_extension_witness :
    strLower (nameSuffix (FilePath.mk [] ("output_resume.pdf")).name)
      = routeTargetExt (strLower (nameSuffix (FilePath.mk [] ("resume.docx")).name)) none ∧
    strLower (nameSuffix (FilePath.mk [] ("output_resume.pdf")).name)
      ≠ strLower (nameSuffix (FilePath.mk [] ("resume.docx")).name) :=
  c8_output_extension ⟨some ("soffice"), true, true, true⟩ ⟨[], "resume.docx"⟩ none none
    [⟨[], "resume.docx"⟩] ⟨[], "output_resume.pdf"⟩ (Or.inl rfl) rfl

/-- C9 counterexample: the DOCX to PDF fallback tier runs its soffice
subprocess without capture_output — the trace of a run where docx2pdf
fails and soffice succeeds contains a soffice action whose capture flag is
false, so not every office-suite invocation captures its output. -/
theorem c9_counterexample :
    Action.soffice ("soffice") ("pdf") [] ⟨[], "a.docx"⟩ false
      ∈ (convert_docx_to_pdf ⟨some ("soffice"), false, true, true⟩ ⟨[], "a.docx"⟩
        ⟨[], "a.pdf"⟩ []).trace := by
  decide

/-- C9 amended: the PDF to DOCX soffice invocation always passes
capture_output, while the DOCX to PDF fallback invocation never does (its
output is streamed rather than captured). -/
theorem c9_amended_capture (env : Env) (src dst : FilePath) (fs : FS) :
    ((convert_pdf_to_docx env src dst fs).trace.all (capOnly true)) = true ∧
    ((convert_docx_to_pdf env src dst fs).trace.all (capOnly false)) = true := by
  obtain ⟨sof, d2p, sOk, p2d⟩ := env
  cases sof with
  | none =>
    cases d2p <;> cases p2d <;>
      simp [convert_pdf_to_docx, convert_docx_to_pdf, pdf2docxFallback, capOnly]
  | some s =>
    cases d2p <;> cases sOk <;> cases p2d <;>
      by_cases hd : (⟨dst.dir, withSuffixName src.name (".docx")⟩ : FilePath) = dst <;>
      simp [convert_pdf_to_docx, convert_docx_to_pdf, pdf2docxFallback, capOnly, hd]

/-- C10 counterexample: convert_pdf_to_docx can delete its source file.
With the source named a.docx in the destination's directory, the soffice
output path coincides with the source, and the rename moves it away: the
source existed before the call and no longer exists afterwards, although
the call returns normally. -/
theorem c10_counterexample :
    (⟨[], "a.docx"⟩ : FilePath) ∈ ([⟨[], "a.docx"⟩] : FS) ∧
    (convert_pdf_to_docx ⟨some ("soffice"), true, true, true⟩ ⟨[], "a.docx"⟩
      ⟨[], "b.docx"⟩ [⟨[], "a.docx"⟩]).result = Except.ok () ∧
    (⟨[], "a.docx"⟩ : FilePath) ∉ (convert_pdf_to_docx ⟨some ("soffice"), true, true, true⟩
      ⟨[], "a.docx"⟩ ⟨[], "b.docx"⟩ [⟨[], "a.docx"⟩]).fs :=
  ⟨by decide, rfl, by decide⟩

/-- C10 amended: provided the source path differs from the destination and
from the office-suite output path (destination parent, source base name,
target extension), neither converter removes the source file, no performed
action writes to or removes the source path, and every action is the
destination-parent mkdir, a write into the destination's parent directory,
or the rename of the office-suite output to the destination. -/
theorem c10_amended_frame (env : Env) (src dst : FilePath) (fs : FS) :
    (src ≠ dst → src ≠ ⟨dst.dir, withSuffixName src.name (".pdf")⟩ →
      (src ∈ fs → src ∈ (convert_docx_to_pdf env src dst fs).fs) ∧
      ∀ a ∈ (convert_docx_to_pdf env src dst fs).trace,
        a.writeTarget ≠ some src ∧ a.removeTarget ≠ some src ∧
        (a = Action.mkdirP dst.dir ∨
          (∃ p, a.writeTarget = some p ∧ p.dir = dst.dir ∧ a.removeTarget = none) ∨
          a = Action.rename ⟨dst.dir, withSuffixName src.name (".pdf")⟩ dst)) ∧
    (src ≠ dst → src ≠ ⟨dst.dir, withSuffixName src.name (".docx")⟩ →
      (src ∈ fs → src ∈ (convert_pdf_to_docx env src dst fs).fs) ∧
      ∀ a ∈ (convert_pdf_to_docx env src dst fs).trace,
        a.writeTarget ≠ some src ∧ a.removeTarget ≠ some src ∧
        (a = Action.mkdirP dst.dir ∨
          (∃ p, a.writeTarget = some p ∧ p.dir = dst.dir ∧ a.removeTarget = none) ∨
          a = Action.rename ⟨dst.dir, withSuffixName src.name (".docx")⟩ dst)) := by
  have hdp : ("." ++ "pdf" : String) = ".pdf" := rfl
  have hdd : ("." ++ "docx" : String) = ".docx" := rfl
  obtain ⟨sof, d2p, sOk, p2d⟩ := env
  constructor
  · intro h1 h2
    refine ⟨fun hsrc => ?_, ?_⟩
    · cases sof <;> cases d2p <;> cases sOk <;>
        simp [convert_docx_to_pdf, hsrc]
    · cases sof <;> cases d2p <;> cases sOk <;>
        simp [convert_docx_to_pdf, Action.writeTarget, Action.removeTarget, hdp, hdd,
          Ne.symm h1, Ne.symm h2, h1, h2]
  · intro h1 h2
    refine ⟨fun hsrc => ?_, ?_⟩
    · cases sof <;> cases sOk <;> cases p2d <;>
        by_cases hd : (⟨dst.dir, withSuffixName src.name (".docx")⟩ : FilePath) = dst <;>
        simp [convert_pdf_to_docx, pdf2docxFallback, hsrc, hd, h2, Ne.symm h2]
    · cases sof <;> cases sOk <;> cases p2d <;>
        by_cases hd : (⟨dst.dir, withSuffixName src.name (".docx")⟩ : FilePath) = dst <;>
        simp [convert_pdf_to_docx, pdf2docxFallback, Action.writeTarget, Action.removeTarget,
          hdp, hdd, hd, Ne.symm h1, Ne.symm h2, h1, h2]

/-- Witness for the amended C10: two concrete conversions in which the
source survives the call. -/
theorem c10_amended_frame_witness :
    (⟨[], "a.docx"⟩ : FilePath)
      ∈ (convert_docx_to_pdf ⟨some ("soffice"), false, true, true⟩ ⟨[], "a.docx"⟩
          ⟨[], "out.pdf"⟩ [⟨[], "a.docx"⟩]).fs ∧
    (⟨[], "a.pdf"⟩ : FilePath)
      ∈ (convert_pdf_to_docx ⟨some ("soffice"), false, true, true⟩ ⟨[], "a.pdf"⟩
          ⟨[], "out.docx"⟩ [⟨[], "a.pdf"⟩]).fs :=
  ⟨((c10_amended_frame ⟨some ("soffice"), false, true, true⟩ ⟨[], "a.docx"⟩ ⟨[], "out.pdf"⟩
      [⟨[], "a.docx"⟩]).1 (by decide) (by decide)).1 (by decide),
   ((c10_amended_frame ⟨some ("soffice"), false, true, true⟩ ⟨[], "a.pdf"⟩ ⟨[], "out.docx"⟩
      [⟨[], "a.pdf"⟩]).2 (by decide) (by decide)).1 (by decide)⟩

end ResConv
